import Mathlib

/-!
Shallow embedding of the XiaoZhi ESP32 WebSocket session server
(`custom_components/xiaozhi/websocket_server.py`, class `XiaozhiWebSocket`).

Modelling conventions, each justified by the Python semantics it mirrors:

* Python's `None`-or-empty truthiness on identifier strings is modelled by
  plain `String` with `""` standing for both `None` and the empty string:
  every use the server makes of a device id (`if not device_id`,
  `if device_id:`, dict/set keys after a truthiness check) only distinguishes
  truthy from falsy, never `None` from `""`.
* `self.connections : Dict[str, Any]` is an association list
  `List (String × Nat)` where the `Nat` is an opaque handle naming the
  websocket/session object; insertion replaces any previous binding for the
  same key, as Python dict assignment does.
* `self.device_ids : Set[str]` is a duplicate-free-by-construction
  `List String`.
* JSON values sent or read by the server are modelled by `JVal`/`JObj`.
  The only nested object the server ever builds is the fixed `audio_params`
  block of the hello response, modelled by the dedicated `AudioParams`
  constructor; client envelope fields that the server reads (`type`,
  `device_id`, `device-id`, `wakeword`) are modelled as strings, which is
  the only case the server handles without raising.
* Externally visible actions (transport sends, `close`, the
  `on_device_connected` / `on_device_disconnected` callback invocation
  points, `hass.bus.async_fire`, registry mutation, the first
  `websocket.recv()`, entry into the dispatch loop) are recorded in order
  in a trace of `Event`s.  A callback event records that the invocation
  point was reached (the Python guards `if self.on_device_connected:` etc.
  only skip the call when no callback was registered).
* `await websocket.recv()` raising (closed connection) is modelled by the
  first frame being absent; transport sends inside the connection handler
  and dispatcher are modelled as succeeding.  `send_tts_message`, whose
  contract is about write failures, is modelled with explicit per-send
  success flags reflecting its own `try`/`except` structure.
-/

/-- The fixed `audio_params` object of the hello response
(lines 180–184 of `websocket_server.py`). -/
structure AudioParams where
  sample_rate : Int
  format : String
  channels : Int
deriving DecidableEq, Repr

/-- A JSON value as used in the server's envelopes. -/
inductive JVal where
  | s : String → JVal
  | n : Int → JVal
  | audio : AudioParams → JVal
deriving DecidableEq, Repr

/-- A JSON object (envelope body): ordered field list, as built by the
Python dict literals the server passes to `json.dumps`. -/
abbrev JObj := List (String × JVal)

/-- `data.get(key)` restricted to string-valued fields: `some v` when the
field is present with string value `v`, else `none`. -/
def getStr (fs : JObj) (key : String) : Option String :=
  match fs.lookup key with
  | some (JVal.s v) => some v
  | _ => none

/-- `data.get(key, default)` for string fields, with Python's `None`/absent
collapsed into the default. -/
def getStrD (fs : JObj) (key dflt : String) : String :=
  match getStr fs key with
  | some v => v
  | none => dflt

/-- Externally visible actions of the server, in program order. -/
inductive Event where
  /-- `await websocket.close(code, reason)` -/
  | close (code : Nat) (reason : String)
  /-- `await websocket.send(json.dumps(env))` on transport handle `ws` -/
  | sent (ws : Nat) (env : JObj)
  /-- the `on_device_connected` invocation point (line 191–192) -/
  | connectedCb (d : String)
  /-- the `on_device_disconnected` invocation point (line 223–224) -/
  | disconnectedCb (d : String)
  /-- `hass.bus.async_fire(event, {device_id, wakeword})` (line 327–330) -/
  | busFire (event : String) (d : String) (wakeword : String)
  /-- `self.connections[d] = ws` executed -/
  | registryInsert (d : String) (ws : Nat)
  /-- `del self.connections[d]` executed -/
  | registryRemove (d : String)
  /-- the first `await websocket.recv()` (line 149) was reached -/
  | recvFirst
  /-- `await self._handle_messages(d, websocket)` entered (line 195) -/
  | loopStart (d : String)
deriving DecidableEq, Repr

/-- State of one `XiaozhiWebSocket` instance: the configured mount path and
pipeline id (`""` models an unset/None pipeline), plus the two mutable
collections `self.connections` and `self.device_ids`. -/
structure ServerState where
  websocket_path : String
  pipeline_id : String
  connections : List (String × Nat)
  device_ids : List String
deriving DecidableEq, Repr

/-- `key in dict` -/
def dictContains (m : List (String × Nat)) (k : String) : Bool :=
  (m.lookup k).isSome

/-- `dict[key]` / `dict.get(key)` -/
def dictLookup (m : List (String × Nat)) (k : String) : Option Nat :=
  m.lookup k

/-- `del dict[key]` (also used to drop a shadowed binding on insert) -/
def dictRemove (m : List (String × Nat)) (k : String) : List (String × Nat) :=
  m.filter (fun p => p.1 ≠ k)

/-- `dict[key] = value`: replaces any existing binding for `key`. -/
def dictInsert (m : List (String × Nat)) (k : String) (v : Nat) :
    List (String × Nat) :=
  (k, v) :: dictRemove m k

/-- `set.add(x)` -/
def setAdd (s : List String) (x : String) : List String :=
  if x ∈ s then s else x :: s

/-- `set.remove(x)` (callers guard membership, as the Python does) -/
def setRemove (s : List String) (x : String) : List String :=
  s.filter (fun y => y ≠ x)

/-- Hello response, lines 177–186: `{"type": "hello", "transport":
"websocket", "audio_params": {"sample_rate": 16000, "format": "opus",
"channels": 1}, "status": "ok"}`. -/
def helloResponse : JObj :=
  [("type", JVal.s "hello"),
   ("transport", JVal.s "websocket"),
   ("audio_params", JVal.audio ⟨16000, "opus", 1⟩),
   ("status", JVal.s "ok")]

/-- `{"type": "pong"}` (line 258). -/
def pongEnv : JObj := [("type", JVal.s "pong")]

/-- `{"type": "auth", "status": "ok"}` (lines 412–415). -/
def authOkEnv : JObj := [("type", JVal.s "auth"), ("status", JVal.s "ok")]

/-- `{"type": "error", "error": code, "message": msg}` (lines 344–348,
374–378, 382–386). -/
def errEnv (code msg : String) : JObj :=
  [("type", JVal.s "error"), ("error", JVal.s code), ("message", JVal.s msg)]

/-- `{"type": "recognition_result", "text": t, "status": "success"}`
(lines 367–371). -/
def recognitionEnv (t : String) : JObj :=
  [("type", JVal.s "recognition_result"), ("text", JVal.s t),
   ("status", JVal.s "success")]

/-- `{"type": "tts", "state": "sentence_start", "message": msg}`
(lines 287–293). -/
def ttsStartEnv (msg : String) : JObj :=
  [("type", JVal.s "tts"), ("state", JVal.s "sentence_start"),
   ("message", JVal.s msg)]

/-- `{"type": "tts", "state": "sentence_end"}` (lines 296–301). -/
def ttsEndEnv : JObj :=
  [("type", JVal.s "tts"), ("state", JVal.s "sentence_end")]

/-- Outcome of applying `json.loads` plus `data.get("type")` access to a
frame's payload:
`malformed` — `json.JSONDecodeError`;
`notDict` — any other exception (bytes that are not decodable text, or a
JSON value that is not an object, so that `data.get` raises);
`fields` — a JSON object with the given fields. -/
inductive TextContent where
  | malformed
  | notDict
  | fields (fs : JObj)
deriving DecidableEq, Repr

/-- The first frame of a connection.  `handle_connection` calls
`json.loads(initial_message)` without an `isinstance` check, so the parse
outcome is recorded for binary frames too (`json.loads` accepts `bytes`). -/
structure FirstFrame where
  isText : Bool
  content : TextContent
deriving DecidableEq, Repr

/-- What `assist_pipeline.async_pipeline_from_audio` did for one binary
frame: `ok resp` — returned normally, where `resp = ""` models both a
`None` result and an empty/falsy `result.response`; `raised detail` — the
call raised an exception with `str(exc) = detail`. -/
inductive AudioOutcome where
  | ok (response : String)
  | raised (detail : String)
deriving DecidableEq, Repr

/-- One frame delivered to the dispatcher loop (`async for message in
websocket`): a text frame with its parse outcome, or a binary frame with
its pipeline outcome. -/
inductive Frame where
  | text (c : TextContent)
  | binary (outcome : AudioOutcome)
deriving DecidableEq, Repr

/-- One connection's externally determined inputs: request path, the
`Device-Id` header (`""` models an absent header), the first received
frame (`none` models `recv` raising because the peer closed), the frames
subsequently delivered to the dispatcher before the connection ends, and
the opaque handle of this connection's websocket object. -/
structure ConnScript where
  path : String
  headerDeviceId : String
  firstRecv : Option FirstFrame
  frames : List Frame
  ws : Nat
deriving DecidableEq, Repr

/-- `_cleanup_connection` (lines 214–226).  Keyed purely by the device id
argument: drops `connections[device_id]` and the `device_ids` member when
present, then reaches the `on_device_disconnected` invocation point —
all of it only when `device_id` is truthy. -/
def cleanup_connection (st : ServerState) (device_id : String) :
    ServerState × List Event :=
  if device_id ≠ "" then
    let (conns, evs) :=
      if dictContains st.connections device_id then
        (dictRemove st.connections device_id, [Event.registryRemove device_id])
      else (st.connections, [])
    let dids :=
      if device_id ∈ st.device_ids then setRemove st.device_ids device_id
      else st.device_ids
    ({ st with connections := conns, device_ids := dids },
     evs ++ [Event.disconnectedCb device_id])
  else (st, [])

/-- `_handle_auth_message` (lines 391–424).  `device_id` is the dispatcher's
current id for this session; note the Python reassignment `device_id =
device_id_from_msg` at line 407 rebinds only the local parameter, so the
caller's id is unchanged — accordingly this function returns no id. -/
def handle_auth_message (st : ServerState) (device_id : String) (fs : JObj)
    (ws : Nat) : ServerState × List Event :=
  let device_id_from_msg := getStrD fs "device-id" ""
  if device_id_from_msg ≠ "" ∧ device_id_from_msg ≠ device_id then
    let (conns, evs₁) :=
      if dictContains st.connections device_id then
        (dictRemove st.connections device_id, [Event.registryRemove device_id])
      else (st.connections, [])
    let dids :=
      if device_id ∈ st.device_ids then setRemove st.device_ids device_id
      else st.device_ids
    let st' : ServerState :=
      { st with connections := dictInsert conns device_id_from_msg ws,
                device_ids := setAdd dids device_id_from_msg }
    (st', evs₁ ++ [Event.registryInsert device_id_from_msg ws,
                   Event.sent ws authOkEnv])
  else
    (st, [Event.sent ws authOkEnv])

/-- `_handle_binary_message` (lines 337–389): one envelope per frame,
chosen by pipeline configuration and pipeline outcome; never closes the
connection and never touches the registry. -/
def handle_binary_message (pipeline_id : String) (outcome : AudioOutcome)
    (ws : Nat) : List Event :=
  if pipeline_id = "" then
    [Event.sent ws (errEnv "missing_pipeline" "未配置语音助手Pipeline")]
  else
    match outcome with
    | AudioOutcome.ok resp =>
        if resp ≠ "" then
          [Event.sent ws (recognitionEnv resp)]
        else
          [Event.sent ws (errEnv "no_response" "语音助手没有返回响应")]
    | AudioOutcome.raised detail =>
        [Event.sent ws (errEnv "processing_error" ("音频处理错误: " ++ detail))]

/-- Body of the `async for` loop of `_handle_messages` (lines 231–264) for
one frame.  Per-frame decode failures and handler exceptions are caught and
the loop continues, so every frame yields a successor state and events. -/
def dispatchFrame (st : ServerState) (device_id : String) (ws : Nat)
    (f : Frame) : ServerState × List Event :=
  match f with
  | Frame.text TextContent.malformed => (st, [])
  | Frame.text TextContent.notDict => (st, [])
  | Frame.text (TextContent.fields fs) =>
      let message_type := getStrD fs "type" "unknown"
      if message_type = "start_listen" then (st, [])
      else if message_type = "stop_listen" then (st, [])
      else if message_type = "wakeword_detected" then
        (st, [Event.busFire "xiaozhi_wakeword_detected" device_id
                (getStrD fs "wakeword" "unknown")])
      else if message_type = "auth" then
        handle_auth_message st device_id fs ws
      else if message_type = "abort" then (st, [])
      else if message_type = "ping" then (st, [Event.sent ws pongEnv])
      else (st, [])
  | Frame.binary outcome =>
      (st, handle_binary_message st.pipeline_id outcome ws)

/-- `_handle_messages` (lines 228–275): folds the dispatcher over the
delivered frames.  The local `device_id` is fixed for the whole loop (the
auth handler cannot change it).  `ConnectionClosed` and any other exception
terminating the iteration are caught (lines 271–275), so the function
always returns. -/
def handle_messages (st : ServerState) (device_id : String) (ws : Nat)
    (frames : List Frame) : ServerState × List Event :=
  match frames with
  | [] => (st, [])
  | f :: rest =>
      let (st', evs) := dispatchFrame st device_id ws f
      let (st'', evs') := handle_messages st' device_id ws rest
      (st'', evs ++ evs')

/-- Lines 172–174: `self.connections[device_id] = websocket;
self.device_ids.add(device_id)` — registration of a freshly
hello-acknowledged session, evicting any prior binding for the same id. -/
def registerConn (st : ServerState) (device_id : String) (ws : Nat) :
    ServerState :=
  { st with connections := dictInsert st.connections device_id ws,
            device_ids := setAdd st.device_ids device_id }

/-- `handle_connection` (lines 122–212).  Returns the server state after
the `finally` block together with the ordered trace of events. -/
def handle_connection (st : ServerState) (c : ConnScript) :
    ServerState × List Event :=
  if c.path ≠ st.websocket_path then
    (st, [Event.close 1008 "无效的WebSocket路径"])
  else
    let device_id := c.headerDeviceId
    match c.firstRecv with
    | none =>
        -- recv raised: caught at line 206/208, straight to finally
        let (st', evs) := cleanup_connection st device_id
        (st', Event.recvFirst :: evs)
    | some frame =>
        match frame.content with
        | TextContent.malformed =>
            let (st', evs) := cleanup_connection st device_id
            (st', Event.recvFirst :: Event.close 1008 "无效的JSON格式" :: evs)
        | TextContent.notDict =>
            let (st', evs) := cleanup_connection st device_id
            (st', Event.recvFirst :: Event.close 1011 "服务器内部错误" :: evs)
        | TextContent.fields fs =>
            if getStr fs "type" = some "hello" then
              let device_id :=
                if device_id ≠ "" then device_id else getStrD fs "device_id" ""
              if device_id = "" then
                let (st', evs) := cleanup_connection st device_id
                (st', Event.recvFirst :: Event.close 1008 "缺少设备ID" :: evs)
              else
                let st₁ := registerConn st device_id c.ws
                let (st₂, evs₂) := handle_messages st₁ device_id c.ws c.frames
                let (st₃, evs₃) := cleanup_connection st₂ device_id
                (st₃, Event.recvFirst ::
                      Event.registryInsert device_id c.ws ::
                      Event.sent c.ws helloResponse ::
                      Event.connectedCb device_id ::
                      Event.loopStart device_id :: (evs₂ ++ evs₃))
            else
              let (st', evs) := cleanup_connection st device_id
              (st', Event.recvFirst :: Event.close 1008 "期望hello消息" :: evs)

/-- `get_connected_devices` (lines 308–310): `list(self.device_ids)`. -/
def get_connected_devices (st : ServerState) : List String :=
  st.device_ids

/-- What a caller of `send_tts_message` observes. -/
structure TtsResult where
  state : ServerState
  events : List Event
  warnedNotConnected : Bool
  raisedToCaller : Bool
deriving DecidableEq, Repr

/-- `send_tts_message` (lines 277–306).  `send1Ok`/`send2Ok` say whether
the two transport writes succeed; the function's own
`try`/`except Exception` (lines 279, 304–306) catches a failing write and
merely logs it, so `raisedToCaller` is `false` on every path. -/
def send_tts_message (st : ServerState) (device_id msg : String)
    (send1Ok send2Ok : Bool) : TtsResult :=
  if ¬ dictContains st.connections device_id then
    { state := st, events := [], warnedNotConnected := true,
      raisedToCaller := false }
  else
    let ws := (dictLookup st.connections device_id).getD 0
    if ¬ send1Ok then
      { state := st, events := [], warnedNotConnected := false,
        raisedToCaller := false }
    else if ¬ send2Ok then
      { state := st, events := [Event.sent ws (ttsStartEnv msg)],
        warnedNotConnected := false, raisedToCaller := false }
    else
      { state := st,
        events := [Event.sent ws (ttsStartEnv msg), Event.sent ws ttsEndEnv],
        warnedNotConnected := false, raisedToCaller := false }

/-- The value of `handle_connection`'s local `device_id` at the `finally`
block (line 211): the header value, replaced by the hello body's
`device_id` only when the header was falsy and the first message was a
parsed hello envelope.  An auth rebind never changes it. -/
def teardownId (c : ConnScript) : String :=
  match c.firstRecv with
  | some frame =>
      match frame.content with
      | TextContent.fields fs =>
          if getStr fs "type" = some "hello" then
            if c.headerDeviceId ≠ "" then c.headerDeviceId
            else getStrD fs "device_id" ""
          else c.headerDeviceId
      | _ => c.headerDeviceId
  | none => c.headerDeviceId

/-- Whether the connection reaches the hello-success branch (lines
170–195): first frame parses to an object of type `hello` and the
effective device id is non-empty.  (The path check is handled separately.) -/
def reachesBound (c : ConnScript) : Bool :=
  match c.firstRecv with
  | some frame =>
      match frame.content with
      | TextContent.fields fs =>
          getStr fs "type" == some "hello" && teardownId c != ""
      | _ => false
  | none => false

/-- The four handshake rejection causes that produce a `close` after the
first frame was read. -/
inductive RejectCause where
  | malformedJson
  | notObject
  | wrongType
  | missingId
deriving DecidableEq, Repr, Fintype

/-- `(code, reason)` of the `websocket.close` call for each rejection
cause (lines 201, 205, 198, 167 respectively). -/
def rejectClose : RejectCause → Nat × String
  | RejectCause.malformedJson => (1008, "无效的JSON格式")
  | RejectCause.notObject => (1011, "服务器内部错误")
  | RejectCause.wrongType => (1008, "期望hello消息")
  | RejectCause.missingId => (1008, "缺少设备ID")

/-- Which rejection cause, if any, a first frame triggers. -/
def rejectCauseOf (c : ConnScript) : Option RejectCause :=
  match c.firstRecv with
  | none => none
  | some frame =>
      match frame.content with
      | TextContent.malformed => some RejectCause.malformedJson
      | TextContent.notDict => some RejectCause.notObject
      | TextContent.fields fs =>
          if getStr fs "type" = some "hello" then
            if teardownId c = "" then some RejectCause.missingId else none
          else some RejectCause.wrongType

/-- The implicit invariant relating the two mutable collections: a device
id has a binding in `connections` exactly when it is a member of
`device_ids`. -/
def RegInv (st : ServerState) : Prop :=
  ∀ d, dictContains st.connections d = true ↔ d ∈ st.device_ids
theorem dictLookup_cons (a k : String) (v : Nat) (m : List (String × Nat)) :
    dictLookup ((a, v) :: m) k = if k = a then some v else dictLookup m k := by
  simp [dictLookup, List.lookup]
  rcases h : (k == a) with _ | _ <;> simp_all

theorem dictLookup_dictRemove_self (m : List (String × Nat)) (k : String) :
    dictLookup (dictRemove m k) k = none := by
  induction m with
  | nil => rfl
  | cons p t ih =>
      obtain ⟨a, v⟩ := p
      by_cases h : a = k
      · simp [dictRemove, List.filter, h] at ih ⊢
        exact ih
      · simp only [dictRemove, List.filter] at ih ⊢
        simp only [h, decide_not]
        simp [dictLookup_cons, Ne.symm h, h] at ih ⊢
        exact ih

theorem dictLookup_dictRemove_ne (m : List (String × Nat)) (k k' : String)
    (h : k' ≠ k) : dictLookup (dictRemove m k) k' = dictLookup m k' := by
  induction m with
  | nil => rfl
  | cons p t ih =>
      obtain ⟨a, v⟩ := p
      by_cases ha : a = k
      · subst ha
        simp [dictRemove, List.filter, dictLookup_cons, h, ih] at ih ⊢
        exact ih
      · simp only [dictRemove, List.filter] at ih ⊢
        simp [ha, dictLookup_cons] at ih ⊢
        by_cases hk : k' = a <;> simp [hk, ih]

theorem dictLookup_dictInsert_self (m : List (String × Nat)) (k : String) (v : Nat) :
    dictLookup (dictInsert m k v) k = some v := by
  simp [dictInsert, dictLookup_cons]

theorem dictLookup_dictInsert_ne (m : List (String × Nat)) (k k' : String) (v : Nat)
    (h : k' ≠ k) : dictLookup (dictInsert m k v) k' = dictLookup m k' := by
  simp [dictInsert, dictLookup_cons, h, dictLookup_dictRemove_ne m k k' h]

theorem dictContains_iff (m : List (String × Nat)) (k : String) :
    dictContains m k = true ↔ ∃ v, dictLookup m k = some v := by
  simp [dictContains, dictLookup, Option.isSome_iff_exists]

theorem mem_setAdd (s : List String) (x y : String) :
    y ∈ setAdd s x ↔ y = x ∨ y ∈ s := by
  by_cases h : x ∈ s
  · simp [setAdd, h]
    intro hy; subst hy; exact h
  · simp [setAdd, h]

theorem mem_setRemove (s : List String) (x y : String) :
    y ∈ setRemove s x ↔ y ∈ s ∧ y ≠ x := by
  simp [setRemove]
theorem dictContains_eq (m : List (String × Nat)) (k : String) :
    dictContains m k = (dictLookup m k).isSome := rfl

theorem dictContains_dictRemove (m : List (String × Nat)) (k k' : String) :
    dictContains (dictRemove m k) k' = (decide (k' ≠ k) && dictContains m k') := by
  by_cases h : k' = k
  · subst h
    rw [dictContains_eq, dictLookup_dictRemove_self]
    simp
  · rw [dictContains_eq, dictLookup_dictRemove_ne m k k' h, ← dictContains_eq]
    simp [h]

theorem dictContains_dictInsert (m : List (String × Nat)) (k k' : String)
    (v : Nat) :
    dictContains (dictInsert m k v) k' = (decide (k' = k) || dictContains m k') := by
  by_cases h : k' = k
  · subst h
    rw [dictContains_eq, dictLookup_dictInsert_self]
    simp
  · rw [dictContains_eq, dictLookup_dictInsert_ne m k k' v h, ← dictContains_eq]
    simp [h]

theorem cleanup_connection_state (st : ServerState) (d : String) :
    (cleanup_connection st d).1 =
      if d = "" then st
      else
        { st with
          connections :=
            if dictContains st.connections d then dictRemove st.connections d
            else st.connections,
          device_ids :=
            if d ∈ st.device_ids then setRemove st.device_ids d
            else st.device_ids } := by
  unfold cleanup_connection
  by_cases hd : d = ""
  · simp [hd]
  · by_cases hc : dictContains st.connections d <;>
      by_cases hm : d ∈ st.device_ids <;> simp [hd, hc, hm]

theorem cleanup_connection_events (st : ServerState) (d : String) :
    (cleanup_connection st d).2 =
      if d = "" then []
      else if dictContains st.connections d then
        [Event.registryRemove d, Event.disconnectedCb d]
      else [Event.disconnectedCb d] := by
  unfold cleanup_connection
  by_cases hd : d = ""
  · simp [hd]
  · by_cases hc : dictContains st.connections d <;> simp [hd, hc]

theorem disconnectedCb_mem_cleanup (st : ServerState) (d : String) :
    Event.disconnectedCb d ∈ (cleanup_connection st d).2 ↔ d ≠ "" := by
  rw [cleanup_connection_events]
  by_cases hd : d = ""
  · simp [hd]
  · by_cases hc : dictContains st.connections d <;> simp [hd, hc]
theorem regInv_cleanup (st : ServerState) (d : String) (h : RegInv st) :
    RegInv (cleanup_connection st d).1 := by
  rw [RegInv]
  intro d'
  rw [cleanup_connection_state]
  by_cases hd : d = ""
  · simpa [hd] using h d'
  · by_cases hc : dictContains st.connections d
    · have hm : d ∈ st.device_ids := (h d).1 hc
      simp only [hd, hc, hm, if_neg, if_pos, if_true]
      by_cases hdd : d' = d
      · subst hdd
        simp [dictContains_dictRemove, mem_setRemove]
      · simp [dictContains_dictRemove, mem_setRemove, hdd, h d']
    · have hm : d ∉ st.device_ids := fun hm => hc ((h d).2 hm)
      simp only [hd, hc, hm, if_neg, if_false]
      exact h d'

theorem regInv_registerConn (st : ServerState) (d : String) (ws : Nat)
    (h : RegInv st) : RegInv (registerConn st d ws) := by
  intro d'
  unfold registerConn
  simp only []
  by_cases hdd : d' = d
  · subst hdd
    simp [dictContains_dictInsert, mem_setAdd]
  · simp [dictContains_dictInsert, mem_setAdd, hdd, h d']

theorem regInv_auth (st : ServerState) (d : String) (fs : JObj) (ws : Nat)
    (h : RegInv st) : RegInv (handle_auth_message st d fs ws).1 := by
  unfold handle_auth_message
  by_cases hreb : getStrD fs "device-id" "" ≠ "" ∧ getStrD fs "device-id" "" ≠ d
  · rw [if_pos hreb]
    by_cases hc : dictContains st.connections d
    · have hm : d ∈ st.device_ids := (h d).1 hc
      simp only [hc, hm, if_pos, if_true]
      intro d'
      by_cases hdn : d' = getStrD fs "device-id" ""
      · subst hdn
        simp [dictContains_dictInsert, mem_setAdd]
      · by_cases hdd : d' = d
        · subst hdd
          simp [dictContains_dictInsert, dictContains_dictRemove,
                mem_setAdd, mem_setRemove, hdn]
        · simp [dictContains_dictInsert, dictContains_dictRemove,
                mem_setAdd, mem_setRemove, hdn, hdd, h d']
    · have hm : d ∉ st.device_ids := fun hm => hc ((h d).2 hm)
      simp only [hc, hm, if_neg, if_false]
      intro d'
      by_cases hdn : d' = getStrD fs "device-id" ""
      · subst hdn
        simp [dictContains_dictInsert, mem_setAdd]
      · simp [dictContains_dictInsert, mem_setAdd, hdn, h d']
  · rw [if_neg hreb]
    exact h

theorem regInv_dispatchFrame (st : ServerState) (d : String) (ws : Nat)
    (f : Frame) (h : RegInv st) : RegInv (dispatchFrame st d ws f).1 := by
  match f with
  | Frame.text TextContent.malformed => exact h
  | Frame.text TextContent.notDict => exact h
  | Frame.binary outcome => exact h
  | Frame.text (TextContent.fields fs) =>
      unfold dispatchFrame
      by_cases h1 : getStrD fs "type" "unknown" = "start_listen"
      · simp [h1]; exact h
      by_cases h2 : getStrD fs "type" "unknown" = "stop_listen"
      · simp [h1, h2]; exact h
      by_cases h3 : getStrD fs "type" "unknown" = "wakeword_detected"
      · simp [h1, h2, h3]; exact h
      by_cases h4 : getStrD fs "type" "unknown" = "auth"
      · simp only [h1, h2, h3, h4, if_false, if_true]
        exact regInv_auth st d fs ws h
      by_cases h5 : getStrD fs "type" "unknown" = "abort"
      · simp [h1, h2, h3, h4, h5]; exact h
      by_cases h6 : getStrD fs "type" "unknown" = "ping"
      · simp [h1, h2, h3, h4, h5, h6]; exact h
      · simp [h1, h2, h3, h4, h5, h6]; exact h

theorem regInv_handle_messages (st : ServerState) (d : String) (ws : Nat)
    (frames : List Frame) (h : RegInv st) :
    RegInv (handle_messages st d ws frames).1 := by
  induction frames generalizing st with
  | nil => exact h
  | cons f rest ih =>
      have h' : RegInv (dispatchFrame st d ws f).1 :=
        regInv_dispatchFrame st d ws f h
      have h'' := ih (dispatchFrame st d ws f).1 h'
      rw [handle_messages]
      rcases hd : dispatchFrame st d ws f with ⟨st', evs⟩
      rw [hd] at h''
      simpa using h''
theorem cleanup_connection_empty (st : ServerState) :
    cleanup_connection st "" = (st, []) := by
  unfold cleanup_connection
  simp

theorem handle_connection_path_mismatch (st : ServerState) (c : ConnScript)
    (h : c.path ≠ st.websocket_path) :
    handle_connection st c = (st, [Event.close 1008 "无效的WebSocket路径"]) := by
  unfold handle_connection
  rw [if_pos h]

theorem handle_connection_norecv (st : ServerState) (c : ConnScript)
    (hpath : c.path = st.websocket_path) (h : c.firstRecv = none) :
    handle_connection st c =
      ((cleanup_connection st c.headerDeviceId).1,
       Event.recvFirst :: (cleanup_connection st c.headerDeviceId).2) := by
  obtain ⟨path, hdr, fr, frames, ws⟩ := c
  simp only at hpath h
  subst h
  rcases hcl : cleanup_connection st hdr with ⟨st', evs⟩
  simp [handle_connection, hpath, hcl]

theorem handle_connection_reject (st : ServerState) (c : ConnScript)
    (rc : RejectCause) (hpath : c.path = st.websocket_path)
    (hrc : rejectCauseOf c = some rc) :
    handle_connection st c =
      ((cleanup_connection st (teardownId c)).1,
       Event.recvFirst :: Event.close (rejectClose rc).1 (rejectClose rc).2 ::
         (cleanup_connection st (teardownId c)).2) := by
  obtain ⟨path, hdr, fr, frames, ws⟩ := c
  simp only at hpath hrc ⊢
  rcases fr with _ | ⟨isText, content⟩
  · simp [rejectCauseOf] at hrc
  rcases content with _ | _ | fs
  · simp [rejectCauseOf] at hrc
    subst hrc
    rcases hcl : cleanup_connection st hdr with ⟨st', evs⟩
    simp [handle_connection, hpath, teardownId, rejectClose, hcl]
  · simp [rejectCauseOf] at hrc
    subst hrc
    rcases hcl : cleanup_connection st hdr with ⟨st', evs⟩
    simp [handle_connection, hpath, teardownId, rejectClose, hcl]
  · by_cases hh : getStr fs "type" = some "hello"
    · simp only [rejectCauseOf, hh, if_pos] at hrc
      by_cases ht :
          (if hdr ≠ "" then hdr else getStrD fs "device_id" "") = ""
      · have hhdr : hdr = "" := by
          by_cases hhd : hdr = ""
          · exact hhd
          · rw [if_pos hhd] at ht
            exact absurd ht hhd
        subst hhdr
        simp only [teardownId, hh, if_pos] at ht hrc ⊢
        simp only [ne_eq, not_true_eq_false, if_false, ite_self] at ht hrc ⊢
        rw [if_pos ht] at hrc
        simp at hrc
        subst hrc
        simp [handle_connection, hpath, hh, ht, cleanup_connection_empty,
              rejectClose]
      · simp only [teardownId, hh, if_pos] at hrc
        rw [if_neg ht] at hrc
        simp at hrc
    · simp only [rejectCauseOf, hh, if_neg, if_false] at hrc
      simp at hrc
      subst hrc
      rcases hcl : cleanup_connection st hdr with ⟨st', evs⟩
      simp [handle_connection, hpath, teardownId, hh, rejectClose, hcl]
theorem handle_connection_hello (st : ServerState) (c : ConnScript)
    (hpath : c.path = st.websocket_path) (hb : reachesBound c = true) :
    handle_connection st c =
      ((cleanup_connection
          (handle_messages (registerConn st (teardownId c) c.ws) (teardownId c)
            c.ws c.frames).1 (teardownId c)).1,
       Event.recvFirst ::
       Event.registryInsert (teardownId c) c.ws ::
       Event.sent c.ws helloResponse ::
       Event.connectedCb (teardownId c) ::
       Event.loopStart (teardownId c) ::
         ((handle_messages (registerConn st (teardownId c) c.ws) (teardownId c)
             c.ws c.frames).2 ++
          (cleanup_connection
            (handle_messages (registerConn st (teardownId c) c.ws) (teardownId c)
              c.ws c.frames).1 (teardownId c)).2)) := by
  obtain ⟨path, hdr, fr, frames, ws⟩ := c
  simp only at hpath hb ⊢
  rcases fr with _ | ⟨isText, content⟩
  · simp [reachesBound] at hb
  rcases content with _ | _ | fs
  · simp [reachesBound] at hb
  · simp [reachesBound] at hb
  · rw [reachesBound] at hb
    simp only [Bool.and_eq_true, beq_iff_eq, bne_iff_ne] at hb
    obtain ⟨hh, hne⟩ := hb
    rw [teardownId] at hne
    simp only [hh, if_pos] at hne
    have htid :
        teardownId ⟨path, hdr, some ⟨isText, TextContent.fields fs⟩, frames, ws⟩ =
          if hdr ≠ "" then hdr else getStrD fs "device_id" "" := by
      rw [teardownId]
      simp [hh]
    have hconv : (if hdr ≠ "" then hdr else getStrD fs "device_id" "") =
        (if hdr = "" then getStrD fs "device_id" "" else hdr) := by
      by_cases h : hdr = "" <;> simp [h]
    rw [htid, hconv]
    rw [hconv] at hne
    rcases hm : handle_messages
        (registerConn st (if hdr = "" then getStrD fs "device_id" "" else hdr) ws)
        (if hdr = "" then getStrD fs "device_id" "" else hdr) ws frames with ⟨st₂, evs₂⟩
    rcases hcl : cleanup_connection st₂
        (if hdr = "" then getStrD fs "device_id" "" else hdr) with ⟨st₃, evs₃⟩
    simp [handle_connection, hpath, hh, hne, hm, hcl]
theorem getStr_type_authOk : getStr authOkEnv "type" = some "auth" := rfl

theorem getStr_type_pong : getStr pongEnv "type" = some "pong" := rfl

theorem getStr_type_err (code msg : String) :
    getStr (errEnv code msg) "type" = some "error" := rfl

theorem getStr_type_recognition (t : String) :
    getStr (recognitionEnv t) "type" = some "recognition_result" := rfl

theorem getStr_type_hello : getStr helloResponse "type" = some "hello" := rfl

theorem no_hello_sent_binary (pid : String) (outcome : AudioOutcome) (ws : Nat) :
    ∀ w env, Event.sent w env ∈ handle_binary_message pid outcome ws →
      getStr env "type" ≠ some "hello" := by
  intro w env hmem
  unfold handle_binary_message at hmem
  by_cases hp : pid = ""
  · rw [if_pos hp] at hmem
    simp at hmem
    obtain ⟨h1, h2⟩ := hmem
    subst h2
    rw [getStr_type_err]
    decide
  · rw [if_neg hp] at hmem
    rcases outcome with resp | detail
    · simp only [] at hmem
      by_cases hr : resp ≠ ""
      · rw [if_pos hr] at hmem
        simp at hmem
        obtain ⟨h1, h2⟩ := hmem
        subst h2
        rw [getStr_type_recognition]
        decide
      · rw [if_neg hr] at hmem
        simp at hmem
        obtain ⟨h1, h2⟩ := hmem
        subst h2
        rw [getStr_type_err]
        decide
    · simp only [] at hmem
      simp at hmem
      obtain ⟨h1, h2⟩ := hmem
      subst h2
      rw [getStr_type_err]
      decide

theorem no_hello_sent_auth (st : ServerState) (d : String) (fs : JObj)
    (ws : Nat) :
    ∀ w env, Event.sent w env ∈ (handle_auth_message st d fs ws).2 →
      getStr env "type" ≠ some "hello" := by
  intro w env hmem
  unfold handle_auth_message at hmem
  by_cases hreb : getStrD fs "device-id" "" ≠ "" ∧ getStrD fs "device-id" "" ≠ d
  · rw [if_pos hreb] at hmem
    by_cases hc : dictContains st.connections d
    · rw [if_pos hc] at hmem
      simp only [] at hmem
      simp at hmem
      obtain ⟨h1, h2⟩ := hmem
      subst h2
      decide
    · rw [if_neg hc] at hmem
      simp only [] at hmem
      simp at hmem
      obtain ⟨h1, h2⟩ := hmem
      subst h2
      decide
  · rw [if_neg hreb] at hmem
    simp at hmem
    obtain ⟨h1, h2⟩ := hmem
    subst h2
    decide

theorem no_hello_sent_dispatch (st : ServerState) (d : String) (ws : Nat)
    (f : Frame) :
    ∀ w env, Event.sent w env ∈ (dispatchFrame st d ws f).2 →
      getStr env "type" ≠ some "hello" := by
  intro w env hmem
  match f with
  | Frame.text TextContent.malformed => cases hmem
  | Frame.text TextContent.notDict => cases hmem
  | Frame.binary outcome =>
      exact no_hello_sent_binary st.pipeline_id outcome ws w env hmem
  | Frame.text (TextContent.fields fs) =>
      unfold dispatchFrame at hmem
      by_cases h1 : getStrD fs "type" "unknown" = "start_listen"
      · simp [h1] at hmem
      by_cases h2 : getStrD fs "type" "unknown" = "stop_listen"
      · simp [h1, h2] at hmem
      by_cases h3 : getStrD fs "type" "unknown" = "wakeword_detected"
      · simp [h1, h2, h3] at hmem
      by_cases h4 : getStrD fs "type" "unknown" = "auth"
      · simp only [h1, h2, h3, h4, if_false, if_true] at hmem
        exact no_hello_sent_auth st d fs ws w env hmem
      by_cases h5 : getStrD fs "type" "unknown" = "abort"
      · simp [h1, h2, h3, h4, h5] at hmem
      by_cases h6 : getStrD fs "type" "unknown" = "ping"
      · simp only [h1, h2, h3, h4, h5, h6, if_false, if_true] at hmem
        simp at hmem
        obtain ⟨ha, hb⟩ := hmem
        subst hb
        decide
      · simp [h1, h2, h3, h4, h5, h6] at hmem
theorem no_hello_sent_messages (st : ServerState) (d : String) (ws : Nat)
    (frames : List Frame) :
    ∀ w env, Event.sent w env ∈ (handle_messages st d ws frames).2 →
      getStr env "type" ≠ some "hello" := by
  induction frames generalizing st with
  | nil => intro w env hmem; cases hmem
  | cons f rest ih =>
      intro w env hmem
      rw [handle_messages] at hmem
      rcases hd : dispatchFrame st d ws f with ⟨st', evs⟩
      rw [hd] at hmem
      simp only [] at hmem
      rcases hm : handle_messages st' d ws rest with ⟨st'', evs'⟩
      rw [hm] at hmem
      simp only [List.mem_append] at hmem
      rcases hmem with h | h
      · have := no_hello_sent_dispatch st d ws f w env
        rw [hd] at this
        exact this h
      · have := ih st' w env
        rw [hm] at this
        exact this h

theorem no_hello_sent_cleanup (st : ServerState) (d : String) :
    ∀ w env, Event.sent w env ∈ (cleanup_connection st d).2 →
      getStr env "type" ≠ some "hello" := by
  intro w env hmem
  rw [cleanup_connection_events] at hmem
  by_cases hd : d = ""
  · simp [hd] at hmem
  · by_cases hc : dictContains st.connections d <;> simp [hd, hc] at hmem
theorem teardownId_norecv (c : ConnScript) (h : c.firstRecv = none) :
    teardownId c = c.headerDeviceId := by
  unfold teardownId
  rw [h]

theorem reject_or_bound (c : ConnScript) :
    c.firstRecv = none ∨ (∃ rc, rejectCauseOf c = some rc) ∨
      reachesBound c = true := by
  obtain ⟨path, hdr, fr, frames, ws⟩ := c
  rcases fr with _ | ⟨isText, content⟩
  · left; rfl
  rcases content with _ | _ | fs
  · right; left; exact ⟨RejectCause.malformedJson, rfl⟩
  · right; left; exact ⟨RejectCause.notObject, rfl⟩
  · by_cases hh : getStr fs "type" = some "hello"
    · by_cases ht : teardownId
          ⟨path, hdr, some ⟨isText, TextContent.fields fs⟩, frames, ws⟩ = ""
      · right; left
        refine ⟨RejectCause.missingId, ?_⟩
        simp [rejectCauseOf, hh, ht]
      · right; right
        simp [reachesBound, hh, ht]
    · right; left
      refine ⟨RejectCause.wrongType, ?_⟩
      simp [rejectCauseOf, hh]

theorem regInv_handle_connection (st : ServerState) (c : ConnScript)
    (h : RegInv st) : RegInv (handle_connection st c).1 := by
  by_cases hpath : c.path = st.websocket_path
  · rcases reject_or_bound c with hn | ⟨rc, hrc⟩ | hb
    · rw [handle_connection_norecv st c hpath hn]
      exact regInv_cleanup _ _ h
    · rw [handle_connection_reject st c rc hpath hrc]
      exact regInv_cleanup _ _ h
    · rw [handle_connection_hello st c hpath hb]
      exact regInv_cleanup _ _
        (regInv_handle_messages _ _ _ _ (regInv_registerConn _ _ _ h))
  · rw [handle_connection_path_mismatch st c hpath]
    exact h
/-- C1 (refuted by the code; the claim states removal is keyed by a session
identity check): in the state where device id `dev1` maps to the fresh
session handle `2`, running `_cleanup_connection("dev1")` on behalf of the
stale, previously-evicted session `1` deletes the fresh mapping — the
removal is keyed only by device id, so `dev1 ↦ 2` is NOT left in place
and a subsequent lookup of `dev1` fails. -/
theorem c1_stale_teardown_evicts_fresh_mapping :
    dictLookup
        (ServerState.mk "/ws" "" [("dev1", 2)] ["dev1"]).connections "dev1" =
      some 2
    ∧ (cleanup_connection
        (ServerState.mk "/ws" "" [("dev1", 2)] ["dev1"]) "dev1").1.connections
        = []
    ∧ dictLookup
        (cleanup_connection
          (ServerState.mk "/ws" "" [("dev1", 2)] ["dev1"]) "dev1").1.connections
        "dev1" = none := by
  decide

/-- C2 (refuted by the code; the claim states the registry entry for the
session is removed on every exit path, even after an auth rebind): a
connection binds as `dev1`, rebinds to `dev2` via an auth envelope, then
the loop ends; teardown runs `_cleanup_connection` with the stale
hello-time id `dev1`, so the session's live registry entry `dev2 ↦ 1`
survives the teardown (and the disconnect notification names `dev1`). -/
theorem c2_rebind_leaks_registry_entry :
    (handle_connection (ServerState.mk "/ws" "" [] [])
        (ConnScript.mk "/ws" "dev1"
          (some (FirstFrame.mk true (TextContent.fields [("type", JVal.s "hello")])))
          [Frame.text (TextContent.fields
            [("type", JVal.s "auth"), ("device-id", JVal.s "dev2")])]
          1)).1.connections = [("dev2", 1)]
    ∧ Event.disconnectedCb "dev1" ∈
        (handle_connection (ServerState.mk "/ws" "" [] [])
          (ConnScript.mk "/ws" "dev1"
            (some (FirstFrame.mk true (TextContent.fields [("type", JVal.s "hello")])))
            [Frame.text (TextContent.fields
              [("type", JVal.s "auth"), ("device-id", JVal.s "dev2")])]
            1)).2
    ∧ Event.registryRemove "dev2" ∉
        (handle_connection (ServerState.mk "/ws" "" [] [])
          (ConnScript.mk "/ws" "dev1"
            (some (FirstFrame.mk true (TextContent.fields [("type", JVal.s "hello")])))
            [Frame.text (TextContent.fields
              [("type", JVal.s "auth"), ("device-id", JVal.s "dev2")])]
            1)).2 := by
  decide

/-- C7: a connection whose request path differs from the configured mount
path (exact string comparison) is closed immediately with policy-violation
status 1008, without reading any message (no `recv` event in the trace)
and without any registry mutation (the state is unchanged). -/
theorem c7_path_mismatch_rejected (st : ServerState) (c : ConnScript)
    (h : c.path ≠ st.websocket_path) :
    (handle_connection st c).1 = st
    ∧ (handle_connection st c).2 = [Event.close 1008 "无效的WebSocket路径"]
    ∧ Event.recvFirst ∉ (handle_connection st c).2 := by
  rw [handle_connection_path_mismatch st c h]
  refine ⟨rfl, rfl, ?_⟩
  simp

/-- C7 witness: the theorem applied to a concrete mismatching request. -/
theorem c7_witness :
    (handle_connection (ServerState.mk "/ws" "" [] [])
        (ConnScript.mk "/other" "dev1" none [] 1)).1 =
      ServerState.mk "/ws" "" [] []
    ∧ (handle_connection (ServerState.mk "/ws" "" [] [])
        (ConnScript.mk "/other" "dev1" none [] 1)).2 =
      [Event.close 1008 "无效的WebSocket路径"] := by
  have h := c7_path_mismatch_rejected (ServerState.mk "/ws" "" [] [])
    (ConnScript.mk "/other" "dev1" none [] 1) (by decide)
  exact ⟨h.1, h.2.1⟩
/-- C3 counterexample (refutes "teardown of a never-bound session emits no
disconnected notification and performs no registry removal"): another
session holds `dev1 ↦ 9`; a new connection supplies header `Device-Id:
dev1` but its first message has type `listen`, so it is rejected and never
reaches Bound — yet its teardown emits `disconnectedCb "dev1"` and deletes
the other session's registry entry. -/
theorem c3_counterexample_unbound_teardown_notifies :
    Event.disconnectedCb "dev1" ∈
      (handle_connection (ServerState.mk "/ws" "" [("dev1", 9)] ["dev1"])
        (ConnScript.mk "/ws" "dev1"
          (some (FirstFrame.mk true (TextContent.fields [("type", JVal.s "listen")])))
          [] 2)).2
    ∧ (handle_connection (ServerState.mk "/ws" "" [("dev1", 9)] ["dev1"])
        (ConnScript.mk "/ws" "dev1"
          (some (FirstFrame.mk true (TextContent.fields [("type", JVal.s "listen")])))
          [] 2)).1.connections = [] := by
  decide

/-- C3 amended: teardown of a connection that never reached Bound behaves
exactly as `_cleanup_connection` on the device id determined at teardown
time: the disconnected notification is emitted iff that id is non-empty
(whether or not the session was ever bound), and the registry entry under
that id — if any, possibly another live session's — is removed. -/
theorem c3_amended_unbound_teardown (st : ServerState) (c : ConnScript)
    (hpath : c.path = st.websocket_path) (hnb : reachesBound c = false) :
    (handle_connection st c).1 = (cleanup_connection st (teardownId c)).1
    ∧ (Event.disconnectedCb (teardownId c) ∈ (handle_connection st c).2 ↔
        teardownId c ≠ "") := by
  rcases reject_or_bound c with hn | ⟨rc, hrc⟩ | hb
  · rw [handle_connection_norecv st c hpath hn, teardownId_norecv c hn]
    refine ⟨rfl, ?_⟩
    rw [← teardownId_norecv c hn]
    constructor
    · intro hmem
      rcases List.mem_cons.1 hmem with h | h
      · cases h
      · exact (disconnectedCb_mem_cleanup st (teardownId c)).1 h
    · intro hne
      exact List.mem_cons_of_mem _
        ((disconnectedCb_mem_cleanup st (teardownId c)).2 hne)
  · rw [handle_connection_reject st c rc hpath hrc]
    refine ⟨rfl, ?_⟩
    constructor
    · intro hmem
      rcases List.mem_cons.1 hmem with h | h
      · cases h
      rcases List.mem_cons.1 h with h' | h'
      · cases h'
      · exact (disconnectedCb_mem_cleanup st (teardownId c)).1 h'
    · intro hne
      exact List.mem_cons_of_mem _ (List.mem_cons_of_mem _
        ((disconnectedCb_mem_cleanup st (teardownId c)).2 hne))
  · rw [hb] at hnb
    cases hnb

/-- C3 amended witness: the amended theorem applied to a rejected
handshake that carried header id `dev1`. -/
theorem c3_amended_witness :
    (handle_connection (ServerState.mk "/ws" "" [] [])
        (ConnScript.mk "/ws" "dev1"
          (some (FirstFrame.mk true TextContent.malformed)) [] 2)).1 =
      (cleanup_connection (ServerState.mk "/ws" "" [] [])
        (teardownId (ConnScript.mk "/ws" "dev1"
          (some (FirstFrame.mk true TextContent.malformed)) [] 2))).1
    ∧ (Event.disconnectedCb
        (teardownId (ConnScript.mk "/ws" "dev1"
          (some (FirstFrame.mk true TextContent.malformed)) [] 2)) ∈
        (handle_connection (ServerState.mk "/ws" "" [] [])
          (ConnScript.mk "/ws" "dev1"
            (some (FirstFrame.mk true TextContent.malformed)) [] 2)).2 ↔
        teardownId (ConnScript.mk "/ws" "dev1"
          (some (FirstFrame.mk true TextContent.malformed)) [] 2) ≠ "") := by
  exact c3_amended_unbound_teardown (ServerState.mk "/ws" "" [] [])
    (ConnScript.mk "/ws" "dev1"
      (some (FirstFrame.mk true TextContent.malformed)) [] 2)
    (by decide) (by decide)
/-- C4: on a session currently registered as `d1`, an auth envelope whose
`device-id` field is a non-empty `d2 ≠ d1` moves the registry mapping —
`d1` removed, `d2` inserted, both referring to the same transport handle —
and the events show the move strictly precedes the `{type: auth, status:
ok}` acknowledgment; afterwards lookup of `d1` fails and lookup of `d2`
yields the same session handle. -/
theorem c4_auth_rebind_moves_mapping (st : ServerState) (d1 d2 : String)
    (fs : JObj) (ws : Nat)
    (hb : dictLookup st.connections d1 = some ws)
    (hmsg : getStrD fs "device-id" "" = d2)
    (hne : d2 ≠ d1) (hne' : d2 ≠ "") :
    dictLookup (handle_auth_message st d1 fs ws).1.connections d1 = none
    ∧ dictLookup (handle_auth_message st d1 fs ws).1.connections d2 = some ws
    ∧ (handle_auth_message st d1 fs ws).2 =
        [Event.registryRemove d1, Event.registryInsert d2 ws,
         Event.sent ws authOkEnv] := by
  have hc : dictContains st.connections d1 = true := by
    rw [dictContains_eq, hb]
    rfl
  unfold handle_auth_message
  rw [hmsg, if_pos ⟨hne', hne⟩, if_pos hc]
  simp only []
  refine ⟨?_, ?_, rfl⟩
  · rw [dictLookup_dictInsert_ne _ _ _ _ (fun h => hne h.symm),
        dictLookup_dictRemove_self]
  · rw [dictLookup_dictInsert_self]

/-- C4 witness: concrete rebind of a session bound as `dev1` to `dev2`. -/
theorem c4_witness :
    dictLookup (handle_auth_message (ServerState.mk "/ws" "" [("dev1", 1)] ["dev1"])
        "dev1" [("type", JVal.s "auth"), ("device-id", JVal.s "dev2")]
        1).1.connections "dev1" = none
    ∧ dictLookup (handle_auth_message (ServerState.mk "/ws" "" [("dev1", 1)] ["dev1"])
        "dev1" [("type", JVal.s "auth"), ("device-id", JVal.s "dev2")]
        1).1.connections "dev2" = some 1
    ∧ (handle_auth_message (ServerState.mk "/ws" "" [("dev1", 1)] ["dev1"])
        "dev1" [("type", JVal.s "auth"), ("device-id", JVal.s "dev2")] 1).2 =
        [Event.registryRemove "dev1", Event.registryInsert "dev2" 1,
         Event.sent 1 authOkEnv] := by
  exact c4_auth_rebind_moves_mapping
    (ServerState.mk "/ws" "" [("dev1", 1)] ["dev1"]) "dev1" "dev2"
    [("type", JVal.s "auth"), ("device-id", JVal.s "dev2")] 1
    (by decide) (by decide) (by decide) (by decide)
/-- C5: a connection whose first message is a valid hello yielding a
non-empty device identifier produces the trace prefix: registry insert
(which wins over any prior entry for the same id, as the lookup conjunct
shows), then exactly one hello acknowledgment with the fixed transport
`"websocket"`, audio parameters `{sample_rate: 16000, format: "opus",
channels: 1}` and status `"ok"`, then the device-connected notification,
and only then the start of the dispatch loop; no later event of the trace
sends another hello-typed envelope. -/
theorem c5_hello_registration_ack_order (st : ServerState) (c : ConnScript)
    (hpath : c.path = st.websocket_path) (hb : reachesBound c = true) :
    ∃ tail,
      (handle_connection st c).2 =
        Event.recvFirst ::
        Event.registryInsert (teardownId c) c.ws ::
        Event.sent c.ws
          [("type", JVal.s "hello"), ("transport", JVal.s "websocket"),
           ("audio_params", JVal.audio (AudioParams.mk 16000 "opus" 1)),
           ("status", JVal.s "ok")] ::
        Event.connectedCb (teardownId c) ::
        Event.loopStart (teardownId c) :: tail
      ∧ (∀ w env, Event.sent w env ∈ tail → getStr env "type" ≠ some "hello")
      ∧ dictLookup (registerConn st (teardownId c) c.ws).connections
          (teardownId c) = some c.ws := by
  rw [handle_connection_hello st c hpath hb]
  refine ⟨_, rfl, ?_, dictLookup_dictInsert_self _ _ _⟩
  intro w env hmem
  rcases List.mem_append.1 hmem with h | h
  · exact no_hello_sent_messages _ _ _ _ w env h
  · exact no_hello_sent_cleanup _ _ w env h

/-- C5 witness: the theorem applied to a concrete hello handshake. -/
theorem c5_witness :
    ∃ tail,
      (handle_connection (ServerState.mk "/ws" "" [] [])
        (ConnScript.mk "/ws" ""
          (some (FirstFrame.mk true (TextContent.fields
            [("type", JVal.s "hello"), ("device_id", JVal.s "dev1")]))) [] 1)).2 =
        Event.recvFirst ::
        Event.registryInsert (teardownId (ConnScript.mk "/ws" ""
          (some (FirstFrame.mk true (TextContent.fields
            [("type", JVal.s "hello"), ("device_id", JVal.s "dev1")]))) [] 1)) 1 ::
        Event.sent 1
          [("type", JVal.s "hello"), ("transport", JVal.s "websocket"),
           ("audio_params", JVal.audio (AudioParams.mk 16000 "opus" 1)),
           ("status", JVal.s "ok")] ::
        Event.connectedCb (teardownId (ConnScript.mk "/ws" ""
          (some (FirstFrame.mk true (TextContent.fields
            [("type", JVal.s "hello"), ("device_id", JVal.s "dev1")]))) [] 1)) ::
        Event.loopStart (teardownId (ConnScript.mk "/ws" ""
          (some (FirstFrame.mk true (TextContent.fields
            [("type", JVal.s "hello"), ("device_id", JVal.s "dev1")]))) [] 1)) :: tail
      ∧ (∀ w env, Event.sent w env ∈ tail → getStr env "type" ≠ some "hello")
      ∧ dictLookup (registerConn (ServerState.mk "/ws" "" [] [])
          (teardownId (ConnScript.mk "/ws" ""
            (some (FirstFrame.mk true (TextContent.fields
              [("type", JVal.s "hello"), ("device_id", JVal.s "dev1")]))) [] 1))
          1).connections
          (teardownId (ConnScript.mk "/ws" ""
            (some (FirstFrame.mk true (TextContent.fields
              [("type", JVal.s "hello"), ("device_id", JVal.s "dev1")]))) [] 1)) =
        some 1 := by
  exact c5_hello_registration_ack_order (ServerState.mk "/ws" "" [] [])
    (ConnScript.mk "/ws" ""
      (some (FirstFrame.mk true (TextContent.fields
        [("type", JVal.s "hello"), ("device_id", JVal.s "dev1")]))) [] 1)
    (by decide) (by decide)
/-- C6 counterexample (refutes "a binary first frame is closed with a
distinct close reason and no registry mutation"): the first-message
handling applies `json.loads` without an `isinstance` check, so a BINARY
first frame (`isText = false`) whose bytes are a valid JSON hello is
accepted: the full trace shows a registry insert and no `close` event at
all. -/
theorem c6_counterexample_binary_hello_accepted :
    (handle_connection (ServerState.mk "/ws" "" [] [])
        (ConnScript.mk "/ws" ""
          (some (FirstFrame.mk false (TextContent.fields
            [("type", JVal.s "hello"), ("device_id", JVal.s "dev1")]))) [] 1)).2 =
      [Event.recvFirst, Event.registryInsert "dev1" 1,
       Event.sent 1 helloResponse, Event.connectedCb "dev1",
       Event.loopStart "dev1", Event.registryRemove "dev1",
       Event.disconnectedCb "dev1"] := by
  decide

/-- C6 amended: the first-message check does not distinguish text from
binary frames; a first frame (of either kind) is rejected iff its payload
is malformed JSON, is not a JSON object, parses to a non-hello type, or is
a hello yielding no non-empty device id — each with a distinct
`(code, reason)` close pair (`rejectClose` is injective), the close being
preceded only by the read of the message (so no registry mutation occurs
before the close), and the final state being that of
`_cleanup_connection` on the teardown-time id. -/
theorem c6_amended_first_message_rejection (st : ServerState)
    (c : ConnScript) (rc : RejectCause)
    (hpath : c.path = st.websocket_path)
    (hrc : rejectCauseOf c = some rc) :
    (∃ tail,
      (handle_connection st c).2 =
        Event.recvFirst ::
        Event.close (rejectClose rc).1 (rejectClose rc).2 :: tail
      ∧ ∀ d w, Event.registryInsert d w ∉ tail)
    ∧ (handle_connection st c).1 = (cleanup_connection st (teardownId c)).1
    ∧ ∀ rc₁ rc₂ : RejectCause, rejectClose rc₁ = rejectClose rc₂ → rc₁ = rc₂ := by
  rw [handle_connection_reject st c rc hpath hrc]
  refine ⟨⟨_, rfl, ?_⟩, rfl, by decide⟩
  intro d w hmem
  rw [cleanup_connection_events] at hmem
  by_cases hd : teardownId c = ""
  · simp [hd] at hmem
  · by_cases hc : dictContains st.connections (teardownId c) <;>
      simp [hd, hc] at hmem

/-- C6 amended witness: the amended theorem applied to a malformed-JSON
first frame. -/
theorem c6_amended_witness :
    (∃ tail,
      (handle_connection (ServerState.mk "/ws" "" [] [])
        (ConnScript.mk "/ws" ""
          (some (FirstFrame.mk true TextContent.malformed)) [] 1)).2 =
        Event.recvFirst ::
        Event.close (rejectClose RejectCause.malformedJson).1
          (rejectClose RejectCause.malformedJson).2 :: tail
      ∧ ∀ d w, Event.registryInsert d w ∉ tail)
    ∧ (handle_connection (ServerState.mk "/ws" "" [] [])
        (ConnScript.mk "/ws" ""
          (some (FirstFrame.mk true TextContent.malformed)) [] 1)).1 =
      (cleanup_connection (ServerState.mk "/ws" "" [] [])
        (teardownId (ConnScript.mk "/ws" ""
          (some (FirstFrame.mk true TextContent.malformed)) [] 1))).1
    ∧ ∀ rc₁ rc₂ : RejectCause, rejectClose rc₁ = rejectClose rc₂ → rc₁ = rc₂ := by
  exact c6_amended_first_message_rejection (ServerState.mk "/ws" "" [] [])
    (ConnScript.mk "/ws" "" (some (FirstFrame.mk true TextContent.malformed)) [] 1)
    RejectCause.malformedJson (by decide) (by decide)
theorem send_tts_state (st : ServerState) (d msg : String) (s1 s2 : Bool) :
    (send_tts_message st d msg s1 s2).state = st := by
  unfold send_tts_message
  by_cases hc : dictContains st.connections d <;>
    rcases s1 with _ | _ <;> rcases s2 with _ | _ <;> simp [hc]

theorem send_tts_raised (st : ServerState) (d msg : String) (s1 s2 : Bool) :
    (send_tts_message st d msg s1 s2).raisedToCaller = false := by
  unfold send_tts_message
  by_cases hc : dictContains st.connections d <;>
    rcases s1 with _ | _ <;> rcases s2 with _ | _ <;> simp [hc]

theorem send_tts_not_connected (st : ServerState) (d msg : String)
    (s1 s2 : Bool) (h : dictContains st.connections d = false) :
    (send_tts_message st d msg s1 s2).events = []
    ∧ (send_tts_message st d msg s1 s2).warnedNotConnected = true := by
  unfold send_tts_message
  simp [h]

theorem send_tts_success (st : ServerState) (d msg : String) (ws : Nat)
    (h : dictLookup st.connections d = some ws) :
    (send_tts_message st d msg true true).events =
      [Event.sent ws (ttsStartEnv msg), Event.sent ws ttsEndEnv]
    ∧ (send_tts_message st d msg true true).warnedNotConnected = false := by
  have hc : dictContains st.connections d = true := by
    rw [dictContains_eq, h]
    rfl
  unfold send_tts_message
  simp [hc, h]

/-- C8 counterexample (refutes "a transport-level write failure surfaces
as an error condition to the caller of sendTts"): device `dev1` has a live
session, the first transport write fails, yet `send_tts_message` swallows
the exception — the caller observes `raisedToCaller = false` and no
envelope was delivered. -/
theorem c8_counterexample_write_failure_swallowed :
    (send_tts_message (ServerState.mk "/ws" "" [("dev1", 1)] ["dev1"])
        "dev1" "hi" false false).raisedToCaller = false
    ∧ (send_tts_message (ServerState.mk "/ws" "" [("dev1", 1)] ["dev1"])
        "dev1" "hi" false false).events = [] := by
  decide

/-- C8 amended: `send_tts_message(deviceId, text)` never mutates the
registry and never lets an error reach its caller (its own
`try`/`except` catches transport failures and only logs them); with no
live session it sends nothing and reports a warning; with a live session
and a healthy transport it sends exactly the two envelopes
`{type: tts, state: sentence_start, message: text}` then
`{type: tts, state: sentence_end}`, in order. -/
theorem c8_amended_send_tts (st : ServerState) (d msg : String)
    (send1Ok send2Ok : Bool) :
    (send_tts_message st d msg send1Ok send2Ok).state = st
    ∧ (send_tts_message st d msg send1Ok send2Ok).raisedToCaller = false
    ∧ (dictContains st.connections d = false →
        (send_tts_message st d msg send1Ok send2Ok).events = []
        ∧ (send_tts_message st d msg send1Ok send2Ok).warnedNotConnected = true)
    ∧ (∀ ws, dictLookup st.connections d = some ws → send1Ok = true →
        send2Ok = true →
        (send_tts_message st d msg send1Ok send2Ok).events =
          [Event.sent ws (ttsStartEnv msg), Event.sent ws ttsEndEnv]
        ∧ (send_tts_message st d msg send1Ok send2Ok).warnedNotConnected
            = false) := by
  refine ⟨send_tts_state st d msg send1Ok send2Ok,
          send_tts_raised st d msg send1Ok send2Ok,
          fun h => send_tts_not_connected st d msg send1Ok send2Ok h,
          fun ws hws h1 h2 => ?_⟩
  subst h1
  subst h2
  exact send_tts_success st d msg ws hws

/-- C8 amended witness: a live session with a healthy transport receives
exactly the two tts envelopes, and the caller sees no error. -/
theorem c8_amended_witness :
    (send_tts_message (ServerState.mk "/ws" "" [("dev1", 1)] ["dev1"])
        "dev1" "hi" true true).state =
      ServerState.mk "/ws" "" [("dev1", 1)] ["dev1"]
    ∧ (send_tts_message (ServerState.mk "/ws" "" [("dev1", 1)] ["dev1"])
        "dev1" "hi" true true).raisedToCaller = false
    ∧ (send_tts_message (ServerState.mk "/ws" "" [("dev1", 1)] ["dev1"])
        "dev1" "hi" true true).events =
        [Event.sent 1 (ttsStartEnv "hi"), Event.sent 1 ttsEndEnv] := by
  have h := c8_amended_send_tts (ServerState.mk "/ws" "" [("dev1", 1)] ["dev1"])
    "dev1" "hi" true true
  exact ⟨h.1, h.2.1, (h.2.2.2 1 (by decide) rfl rfl).1⟩
/-- C9: for a binary frame on a bound session, the handler sends exactly
one envelope determined by the pipeline configuration and outcome —
`missing_pipeline` when no pipeline id is configured, the recognition
result on success, `no_response` when the pipeline yields no usable text,
`processing_error` carrying the exception detail when the call raises —
and in every case the registry state is untouched, nothing but a single
send happens (no close, no teardown), and no retry occurs. -/
theorem c9_binary_frame_error_envelopes (pid : String)
    (outcome : AudioOutcome) (ws : Nat) :
    (pid = "" → handle_binary_message pid outcome ws =
        [Event.sent ws (errEnv "missing_pipeline" "未配置语音助手Pipeline")])
    ∧ (∀ t, pid ≠ "" → outcome = AudioOutcome.ok t → t ≠ "" →
        handle_binary_message pid outcome ws =
          [Event.sent ws (recognitionEnv t)])
    ∧ (pid ≠ "" → outcome = AudioOutcome.ok "" →
        handle_binary_message pid outcome ws =
          [Event.sent ws (errEnv "no_response" "语音助手没有返回响应")])
    ∧ (∀ detail, pid ≠ "" → outcome = AudioOutcome.raised detail →
        handle_binary_message pid outcome ws =
          [Event.sent ws
            (errEnv "processing_error" ("音频处理错误: " ++ detail))])
    ∧ (∀ st d, (dispatchFrame st d ws (Frame.binary outcome)).1 = st)
    ∧ (handle_binary_message pid outcome ws).length = 1
    ∧ (∀ e, e ∈ handle_binary_message pid outcome ws →
        ∃ env, e = Event.sent ws env) := by
  refine ⟨?_, ?_, ?_, ?_, ?_, ?_, ?_⟩
  · intro hp
    unfold handle_binary_message
    rw [if_pos hp]
  · intro t hp ho ht
    subst ho
    unfold handle_binary_message
    rw [if_neg hp]
    simp only []
    rw [if_pos ht]
  · intro hp ho
    subst ho
    unfold handle_binary_message
    rw [if_neg hp]
    simp only []
    rw [if_neg (by simp)]
  · intro detail hp ho
    subst ho
    unfold handle_binary_message
    rw [if_neg hp]
  · intro st d
    rfl
  · unfold handle_binary_message
    by_cases hp : pid = ""
    · rw [if_pos hp]
      rfl
    · rw [if_neg hp]
      rcases outcome with resp | detail
      · simp only []
        by_cases hr : resp ≠ ""
        · rw [if_pos hr]
          rfl
        · rw [if_neg hr]
          rfl
      · rfl
  · intro e hmem
    unfold handle_binary_message at hmem
    by_cases hp : pid = ""
    · rw [if_pos hp] at hmem
      simp at hmem
      exact ⟨_, hmem⟩
    · rw [if_neg hp] at hmem
      rcases outcome with resp | detail
      · simp only [] at hmem
        by_cases hr : resp ≠ ""
        · rw [if_pos hr] at hmem
          simp at hmem
          exact ⟨_, hmem⟩
        · rw [if_neg hr] at hmem
          simp at hmem
          exact ⟨_, hmem⟩
      · simp only [] at hmem
        simp at hmem
        exact ⟨_, hmem⟩

/-- C9 witness: the theorem applied with an unset pipeline id and a
raising outcome, projecting the missing-pipeline case. -/
theorem c9_witness :
    handle_binary_message "" (AudioOutcome.ok "hello world") 1 =
      [Event.sent 1 (errEnv "missing_pipeline" "未配置语音助手Pipeline")]
    ∧ handle_binary_message "p1" (AudioOutcome.ok "hello world") 1 =
      [Event.sent 1 (recognitionEnv "hello world")] := by
  exact ⟨(c9_binary_frame_error_envelopes "" (AudioOutcome.ok "hello world") 1).1
            rfl,
         ((c9_binary_frame_error_envelopes "p1" (AudioOutcome.ok "hello world")
            1).2.1) "hello world" (by decide) rfl (by decide)⟩
/-- C10: assuming the key-set of `connections` agrees with `device_ids`
(`RegInv`), every state-mutating operation — hello registration, an auth
rebind, connection cleanup, and hence a whole connection's execution —
preserves the agreement, and `get_connected_devices` returns exactly the
ids that have a live session mapping. -/
theorem c10_connections_device_ids_agree (st : ServerState) (h : RegInv st) :
    (∀ d ws, RegInv (registerConn st d ws))
    ∧ (∀ d fs ws, RegInv (handle_auth_message st d fs ws).1)
    ∧ (∀ d, RegInv (cleanup_connection st d).1)
    ∧ (∀ c, RegInv (handle_connection st c).1)
    ∧ (∀ d, d ∈ get_connected_devices st ↔
        dictContains st.connections d = true) := by
  refine ⟨fun d ws => regInv_registerConn st d ws h,
          fun d fs ws => regInv_auth st d fs ws h,
          fun d => regInv_cleanup st d h,
          fun c => regInv_handle_connection st c h,
          fun d => ?_⟩
  rw [get_connected_devices]
  exact (h d).symm

/-- C10 witness: the theorem applied to a concrete in-sync state, with the
hello-registration component evaluated. -/
theorem c10_witness :
    RegInv (registerConn (ServerState.mk "/ws" "" [("dev1", 1)] ["dev1"])
      "dev2" 2)
    ∧ ("dev1" ∈ get_connected_devices
          (ServerState.mk "/ws" "" [("dev1", 1)] ["dev1"]) ↔
        dictContains
          (ServerState.mk "/ws" "" [("dev1", 1)] ["dev1"]).connections "dev1"
          = true) := by
  have hinv : RegInv (ServerState.mk "/ws" "" [("dev1", 1)] ["dev1"]) := by
    intro d
    rw [dictContains_eq, dictLookup_cons]
    by_cases hd : d = "dev1" <;> simp [hd, dictLookup]
  have h := c10_connections_device_ids_agree
    (ServerState.mk "/ws" "" [("dev1", 1)] ["dev1"]) hinv
  exact ⟨h.1 "dev2" 2, h.2.2.2.2 "dev1"⟩
